/-
Verification of the camera-ingest module.

This file shallowly embeds the core of the repository in Lean 4:
  * `app/utils/circular_buffer.py`  (CircularBuffer over `collections.deque(maxlen=capacity)`)
  * `app/services/camera_worker.py` (CameraWorker: constructor, `start`, `stop`,
    `_run` loop body, `_handle_connect` / `_handle_disconnect`, `_detect_simple_motion`,
    `_process_frame`, `get_latest_frame_jpeg`, and the module-level registry
    functions `start_worker`, `stop_worker`, `register_camera`)
  * `app/api/cameras.py`            (`http_push_ingest`)
  * `app/core/config.py`            (the `Settings` defaults)

Modelling conventions:
  * Python floats (timestamps, delays) are modelled as `Int`; every value the
    embedded code computes with (1.0, 2.0, 60, 5, wall-clock comparisons and
    additions of whole seconds) is integral, so no float rounding is relevant
    to the claims.
  * Python dicts (`camera_store`, `worker_store`, `task_store`) are association
    lists with dict semantics (unique keys, overwrite on assignment).
  * asyncio tasks are records with a `terminated` flag; `task.cancel()` followed
    by `await task` marks the task terminated (the read loop does not catch
    `CancelledError`, which in Python is a `BaseException`, so cancellation
    always terminates the task).
  * External library calls are modelled by executable stand-ins faithful to the
    documented behaviour the code relies on: images are lists of pixel rows,
    `cv2.absdiff` / `cv2.threshold(THRESH_BINARY)` / `cv2.dilate` are the
    pointwise / window-max operations, `cv2.findContours` + `contourArea` is
    extraction of maximal runs of foreground pixels with their sizes, and
    `cv2.cvtColor(BGR2GRAY)` / `cv2.GaussianBlur` are a luminance map and a
    window average.  The deep-inference capability (`_detect_persons_yolo`) is
    external per the spec; its invocation is recorded as a trace item.
  * `redis_publisher.publish` is `async`; a call that is awaited either appends
    the event to the trace (success) or raises (failure), driven by an oracle
    `pubs : Nat → Bool`.  Exceptions are modelled by `Except`, whose `error`
    branch carries the state at the raise point (Python exceptions do not roll
    back prior mutations).
-/
import Mathlib

set_option linter.unusedVariables false

/-! ## Association lists with Python-dict semantics -/

/-- Lookup in an association list (first binding wins; dict keys are unique). -/
def alget {κ β : Type} [BEq κ] : List (κ × β) → κ → Option β
  | [], _ => none
  | p :: rest, k => if p.1 == k then some p.2 else alget rest k

/-- `m[k] = v` on a Python dict: overwrite the binding if present, else append. -/
def alset {κ β : Type} [BEq κ] : List (κ × β) → κ → β → List (κ × β)
  | [], k, v => [(k, v)]
  | p :: rest, k, v => if p.1 == k then (k, v) :: rest else p :: alset rest k v

/-- `del m[k]` / `m.pop(k, None)` on a Python dict. -/
def aldel {κ β : Type} [BEq κ] : List (κ × β) → κ → List (κ × β)
  | [], _ => []
  | p :: rest, k => if p.1 == k then aldel rest k else p :: aldel rest k

/-- Update the value bound to `k` in place, if present. -/
def alupdate {κ β : Type} [BEq κ] : List (κ × β) → κ → (β → β) → List (κ × β)
  | [], _, _ => []
  | p :: rest, k, f => if p.1 == k then (p.1, f p.2) :: rest else p :: alupdate rest k f

/-- `k in m` on a Python dict. -/
def alcontains {κ β : Type} [BEq κ] (m : List (κ × β)) (k : κ) : Bool :=
  (alget m k).isSome

/-! ## CircularBuffer (`app/utils/circular_buffer.py`)

`self._buffer = deque(maxlen=capacity)`; the list holds the entries oldest
first, exactly as the deque does. -/

structure CircularBuffer (α : Type) where
  capacity : Nat
  buf : List α
deriving DecidableEq

namespace CircularBuffer

variable {α : Type}

/-- `CircularBuffer(capacity)`: an empty deque with the given `maxlen`. -/
def empty (α : Type) (capacity : Nat) : CircularBuffer α := ⟨capacity, []⟩

/-- `put(item)`: `deque.append` — append, and if the deque is at `maxlen`
discard from the left.  (`deque(maxlen=0)` holds nothing.) -/
def put (b : CircularBuffer α) (item : α) : CircularBuffer α :=
  ⟨b.capacity, (b.buf ++ [item]).drop (b.buf.length + 1 - b.capacity)⟩

/-- `get_latest()`: `self._buffer[-1]`, or `None` if empty. -/
def get_latest (b : CircularBuffer α) : Option α := b.buf.getLast?

/-- `get_all()`: `list(self._buffer)`, oldest to newest. -/
def get_all (b : CircularBuffer α) : List α := b.buf

/-- `__len__`. -/
def size (b : CircularBuffer α) : Nat := b.buf.length

end CircularBuffer

/-! ## Settings (`app/core/config.py` defaults) -/

structure Settings where
  ENABLE_PERSON_DETECTION : Bool
  PERSON_COOLDOWN_SECONDS : Nat
  YOLO_CONFIDENCE_THRESHOLD : ℚ
  MOTION_MIN_AREA : Nat
  YOLO_TRIGGER_COOLDOWN : Nat
deriving DecidableEq

def settings : Settings :=
  { ENABLE_PERSON_DETECTION := true
    PERSON_COOLDOWN_SECONDS := 10
    YOLO_CONFIDENCE_THRESHOLD := 65 / 100
    MOTION_MIN_AREA := 1500
    YOLO_TRIGGER_COOLDOWN := 3 }

/-! ## Images and the cv2 pixel pipeline

A grayscale image is a list of pixel intensities; a colour image is a list of
rows of BGR pixels.  The motion pipeline of `_detect_simple_motion` is embedded
over flattened pixel sequences, with connected foreground regions realised as
maximal runs of nonzero pixels. -/

structure BGRPixel where
  b : Nat
  g : Nat
  r : Nat
deriving DecidableEq

abbrev ColorImage := List (List BGRPixel)

/-- `cv2.absdiff`: pointwise absolute difference. -/
def absdiff (a b : List Nat) : List Nat :=
  List.zipWith (fun x y => max x y - min x y) a b

/-- `cv2.threshold(img, t, maxval, cv2.THRESH_BINARY)[1]`: pixels strictly above
`t` become `maxval`, the rest `0`. -/
def thresholdBin (t maxval : Nat) (img : List Nat) : List Nat :=
  img.map (fun x => if t < x then maxval else 0)

/-- One `cv2.dilate` pass: each pixel becomes the maximum over its
neighbourhood. -/
def dilate1 (img : List Nat) : List Nat :=
  List.zipWith max (List.zipWith max img (0 :: img)) (img.drop 1 ++ [0])

/-- `cv2.dilate(img, None, iterations)`. -/
def dilate : Nat → List Nat → List Nat
  | 0, img => img
  | n + 1, img => dilate n (dilate1 img)

/-- Helper for `contourAreas`: accumulate the lengths of maximal runs of
nonzero pixels. -/
def runsAux : List Nat → Nat → List Nat
  | [], acc => if acc = 0 then [] else [acc]
  | x :: xs, acc =>
    if x = 0 then (if acc = 0 then runsAux xs 0 else acc :: runsAux xs 0)
    else runsAux xs (acc + 1)

/-- `cv2.findContours` + `cv2.contourArea` over a binary mask: the sizes of the
maximal foreground regions. -/
def contourAreas (img : List Nat) : List Nat := runsAux img 0

/-- `CameraWorker._detect_simple_motion` (`camera_worker.py` lines 150-162),
as a function of the held reference frame `motion_last_frame`.  Returns the
motion verdict together with the new reference frame; the source replaces
`self.motion_last_frame` with the current frame on every path (lines 152 and
155) before the contour scan. -/
def detect_simple_motion (motion_last_frame : Option (List Nat))
    (frame_gray : List Nat) : Bool × Option (List Nat) :=
  match motion_last_frame with
  | none => (false, some frame_gray)
  | some ref =>
    let frame_delta := absdiff ref frame_gray
    let thresh := dilate 2 (thresholdBin 25 255 frame_delta)
    ((contourAreas thresh).any (fun a => settings.MOTION_MIN_AREA < a),
      some frame_gray)

/-- `cv2.cvtColor(frame, cv2.COLOR_BGR2GRAY)`: standard integer luminance. -/
def cvtColorGray (img : ColorImage) : List Nat :=
  img.flatten.map (fun p => (299 * p.r + 587 * p.g + 114 * p.b) / 1000)

/-- `cv2.GaussianBlur(·, (21, 21), 0)`: a deterministic smoothing pass,
modelled as a window average with replicated borders (cv2 reflects the image
at its borders, which agrees with replication on the window's edge pixel). -/
def gaussianBlurApprox (img : List Nat) : List Nat :=
  (List.zipWith (· + ·) (List.zipWith (· + ·) img (img.headD 0 :: img))
    (img.drop 1 ++ [img.getLastD 0])).map (· / 3)

/-- The grayscale-and-blur preprocessing of `_process_frame` line 183. -/
def grayBlur (frame : ColorImage) : List Nat :=
  gaussianBlurApprox (cvtColorGray frame)

/-! ## Camera model (`app/models/camera.py`) -/

structure Camera where
  id : String
  source_type : String
  source_url : Option String
  status : String
deriving DecidableEq

/-- Entries of a worker's buffer.  `_process_frame` puts `(frame, timestamp)`
tuples (line 165); `http_push_ingest` puts bare frames (`cameras.py` line
127). -/
inductive BufEntry
  | pair (frame : ColorImage) (timestamp : Int)
  | bare (frame : ColorImage)
deriving DecidableEq

/-! ## CameraWorker state (`camera_worker.py` lines 34-84)

All the instance fields the embedded methods read or write.  The YOLO net,
class names and output layers loaded in the constructor belong to the external
deep-inference capability (spec section 6) and carry no state the claims
mention. -/

structure CameraWorker where
  camera_id : String
  stream_url : String
  buffer : CircularBuffer BufEntry
  /-- `self._stop_event.is_set()` -/
  stop_event : Bool
  is_running : Bool
  reconnect_delay : Int
  source_type : String
  stream_width : Option Nat
  stream_height : Option Nat
  stream_fps : Option Int
  last_event_pub_time : Int
  EVENT_PUB_INTERVAL : Int
  person_detection_enabled : Bool
  person_cooldown_end : Int
  yolo_trigger_cooldown_end : Int
  frames_to_skip : Nat
  frame_counter : Nat
  motion_last_frame : Option (List Nat)
deriving DecidableEq

/-- `CameraWorker.__init__(camera_id, stream_url, buffer_capacity=10)`. -/
def CameraWorker.init (camera_id stream_url : String) (buffer_capacity : Nat) :
    CameraWorker :=
  { camera_id := camera_id
    stream_url := stream_url
    buffer := CircularBuffer.empty BufEntry buffer_capacity
    stop_event := false
    is_running := false
    reconnect_delay := 1
    source_type := "rtsp"
    stream_width := none
    stream_height := none
    stream_fps := none
    last_event_pub_time := 0
    EVENT_PUB_INTERVAL := 1
    person_detection_enabled := settings.ENABLE_PERSON_DETECTION
    person_cooldown_end := 0
    yolo_trigger_cooldown_end := 0
    frames_to_skip := 5
    frame_counter := 0
    motion_last_frame := none }

/-! ## Events and the worker run trace -/

inductive EventType
  | cameraConnected
  | cameraDisconnected
  | frameReceived
  | frameIngested
  | personDetected
deriving DecidableEq

/-- A published event: channel key is derived from `camera_id`; the payload
fields the claims inspect are the timestamp and the disconnect reason. -/
structure Event where
  camera_id : String
  etype : EventType
  ts : Int
  reason : Option String
deriving DecidableEq

/-- Observable actions of a worker run: published events, metric updates
(`app/services/metrics.py` calls), sleeps, the motion-detector and
deep-inference invocations, and the capture release. -/
inductive TraceItem
  | sleep (seconds : Int)
  | ev (e : Event)
  | metricStatus (camera_id : String) (up : Bool)
  | metricFrames (camera_id : String)
  | metricLastTs (camera_id : String) (t : Int)
  | motionChecked
  | yoloInvoked
  | capReleased
deriving DecidableEq

/-- State threaded through a worker's run: the worker object, the global
`camera_store` it mutates on connect/disconnect, the observable trace, and the
publish-oracle cursor. -/
structure RunState where
  w : CameraWorker
  camera_store : List (String × Camera)
  log : List TraceItem
  pubIdx : Nat
deriving DecidableEq

/-- `camera_store[camera_id].status = v` guarded by `if camera_id in
camera_store` (a no-op when absent). -/
def setCameraStatus (m : List (String × Camera)) (k v : String) :
    List (String × Camera) :=
  alupdate m k (fun c => { c with status := v })

/-- `redis_publisher.publish(...)`, awaited.  The oracle `pubs` decides whether
this publish call succeeds; on failure the exception carries the state as
mutated so far. -/
def publish (pubs : Nat → Bool) (st : RunState) (e : Event) :
    Except RunState RunState :=
  if pubs st.pubIdx then
    Except.ok { st with pubIdx := st.pubIdx + 1, log := st.log ++ [TraceItem.ev e] }
  else
    Except.error { st with pubIdx := st.pubIdx + 1 }

/-- `CameraWorker._handle_connect` (lines 136-142): set the camera status,
update the status gauge, publish `camera.connected`. -/
def handle_connect (pubs : Nat → Bool) (now : Int) (st : RunState) :
    Except RunState RunState :=
  let st1 := { st with camera_store := setCameraStatus st.camera_store st.w.camera_id "connected",
                       log := st.log ++ [TraceItem.metricStatus st.w.camera_id true] }
  publish pubs st1 { camera_id := st.w.camera_id, etype := EventType.cameraConnected,
                     ts := now, reason := none }

/-- `CameraWorker._handle_disconnect` (lines 144-148). -/
def handle_disconnect (pubs : Nat → Bool) (reason : String) (now : Int)
    (st : RunState) : Except RunState RunState :=
  let st1 := { st with camera_store := setCameraStatus st.camera_store st.w.camera_id "disconnected",
                       log := st.log ++ [TraceItem.metricStatus st.w.camera_id false] }
  publish pubs st1 { camera_id := st.w.camera_id, etype := EventType.cameraDisconnected,
                     ts := now, reason := some reason }

/-- `CameraWorker._process_frame(frame, timestamp)` (lines 164-187).  `now` is
the wall-clock reading (`time.time()`) during the call.  The deep-inference
call `_detect_persons_yolo` is the external capability; its invocation is
recorded as `TraceItem.yoloInvoked`. -/
def process_frame (pubs : Nat → Bool) (st0 : RunState) (frame : ColorImage)
    (timestamp now : Int) : Except RunState RunState :=
  let st1 := { st0 with
    w := { st0.w with buffer := st0.w.buffer.put (BufEntry.pair frame timestamp) },
    log := st0.log ++ [TraceItem.metricFrames st0.w.camera_id,
                       TraceItem.metricLastTs st0.w.camera_id timestamp] }
  let pubStep : Except RunState RunState :=
    if st1.w.EVENT_PUB_INTERVAL < now - st1.w.last_event_pub_time then
      publish pubs { st1 with w := { st1.w with last_event_pub_time := now } }
        { camera_id := st1.w.camera_id, etype := EventType.frameReceived,
          ts := timestamp, reason := none }
    else Except.ok st1
  pubStep.bind (fun st2 =>
    if st2.w.person_detection_enabled then
      let c := st2.w.frame_counter + 1
      if st2.w.frames_to_skip < c then
        let st3 := { st2 with w := { st2.w with frame_counter := 0 } }
        if st3.w.yolo_trigger_cooldown_end ≤ now then
          let g := grayBlur frame
          let res := detect_simple_motion st3.w.motion_last_frame g
          let st4 := { st3 with w := { st3.w with motion_last_frame := res.2 },
                                log := st3.log ++ [TraceItem.motionChecked] }
          if res.1 then
            Except.ok { st4 with
              w := { st4.w with yolo_trigger_cooldown_end :=
                       now + (settings.YOLO_TRIGGER_COOLDOWN : Int) },
              log := st4.log ++ [TraceItem.yoloInvoked] }
          else Except.ok st4
        else Except.ok st3
      else Except.ok { st2 with w := { st2.w with frame_counter := c } }
    else Except.ok st2)

/-- The `Streaming` inner loop of `_run` (lines 123-130): each entry of `reads`
is one `cap.read()` outcome at a wall-clock instant — `some frame` on success
(handed to `_process_frame`), `none` on failure (`_handle_disconnect` then
`break`).  The list running out models the simulation horizon. -/
def read_loop (pubs : Nat → Bool) :
    List (Int × Option ColorImage) → RunState → Except RunState RunState
  | [], st => Except.ok st
  | (t, r) :: rest, st =>
    if st.w.stop_event then Except.ok st
    else
      match r with
      | none => handle_disconnect pubs "Stream closed or error occurred." t st
      | some frame => (process_frame pubs st frame t t).bind (read_loop pubs rest)

/-- One iteration of the outer `while` of `CameraWorker._run` (lines 106-134):
attempt to open the source (`openOk`, with stream metadata `md` on success) at
wall-clock `t0`, then connect handling, backoff reset and the read loop — or,
on open failure, disconnect handling, a backoff sleep and the delay doubling.
Any exception escaping the `try` block is caught at the loop boundary and
answered with a fixed 5-second pause. -/
def run_iter (pubs : Nat → Bool) (openOk : Bool) (md : Nat × Nat × Int) (t0 : Int)
    (reads : List (Int × Option ColorImage)) (st : RunState) : RunState :=
  let body : Except RunState RunState :=
    if openOk then
      let st1 := { st with w := { st.w with stream_width := some md.1,
                                             stream_height := some md.2.1,
                                             stream_fps := some md.2.2 } }
      (handle_connect pubs t0 st1).bind (fun st2 =>
        let st3 := { st2 with w := { st2.w with reconnect_delay := 1 } }
        (read_loop pubs reads st3).map (fun st4 =>
          { st4 with log := st4.log ++ [TraceItem.capReleased] }))
    else
      (handle_disconnect pubs ("Failed to open stream: " ++ st.w.stream_url) t0 st).map
        (fun st1 =>
          { st1 with
            log := st1.log ++ [TraceItem.sleep st1.w.reconnect_delay],
            w := { st1.w with reconnect_delay := min 60 (2 * st1.w.reconnect_delay) } })
  match body with
  | Except.ok st' => st'
  | Except.error st' => { st' with log := st'.log ++ [TraceItem.sleep 5] }

/-- Feed a sequence of frames directly through `_process_frame` (the shared
frame-processing contract), each at its wall-clock instant. -/
def feed_frames (pubs : Nat → Bool) :
    List (Int × ColorImage) → RunState → Except RunState RunState
  | [], st => Except.ok st
  | (t, f) :: rest, st => (process_frame pubs st f t t).bind (feed_frames pubs rest)

/-- The state carried by either outcome of a run fragment (a Python exception
does not roll back mutations). -/
def resState : Except RunState RunState → RunState
  | Except.ok st => st
  | Except.error st => st

/-- Number of deep-inference invocations recorded in a trace. -/
def countYolo (log : List TraceItem) : Nat :=
  log.countP (fun x => match x with | TraceItem.yoloInvoked => true | _ => false)

/-- Number of motion-detector invocations recorded in a trace. -/
def countMotionChecked (log : List TraceItem) : Nat :=
  log.countP (fun x => match x with | TraceItem.motionChecked => true | _ => false)

/-- The projection of a run state that the motion/inference gating reads and
writes: the frame-skip counter, the detector reference frame, the inference
cooldown, the publication throttle, and the counts of detector and
deep-inference invocations so far. -/
structure FrameView where
  frame_counter : Nat
  motion_last_frame : Option (List Nat)
  yolo_trigger_cooldown_end : Int
  last_event_pub_time : Int
  mc_count : Nat
  yolo_count : Nat
deriving DecidableEq

def RunState.view (st : RunState) : FrameView :=
  { frame_counter := st.w.frame_counter
    motion_last_frame := st.w.motion_last_frame
    yolo_trigger_cooldown_end := st.w.yolo_trigger_cooldown_end
    last_event_pub_time := st.w.last_event_pub_time
    mc_count := countMotionChecked st.log
    yolo_count := countYolo st.log }

/-- The action of `_process_frame` on the `FrameView` projection (parameters:
the worker's `person_detection_enabled`, `frames_to_skip` and
`EVENT_PUB_INTERVAL`), valid when every publish succeeds; see
`process_frame_view_spec`. -/
def process_frame_view (enabled : Bool) (skip : Nat) (interval : Int)
    (v : FrameView) (f : ColorImage) (now : Int) : FrameView :=
  let v1 := if interval < now - v.last_event_pub_time
            then { v with last_event_pub_time := now } else v
  if enabled then
    let c := v1.frame_counter + 1
    if skip < c then
      let v2 := { v1 with frame_counter := 0 }
      if v2.yolo_trigger_cooldown_end ≤ now then
        let res := detect_simple_motion v2.motion_last_frame (grayBlur f)
        let v3 := { v2 with motion_last_frame := res.2, mc_count := v2.mc_count + 1 }
        if res.1 then
          { v3 with yolo_trigger_cooldown_end := now + (settings.YOLO_TRIGGER_COOLDOWN : Int),
                    yolo_count := v3.yolo_count + 1 }
        else v3
      else v2
    else { v1 with frame_counter := c }
  else v1

/-! ## Worker supervisor / registry (`camera_worker.py` lines 21-24, 86-103,
252-295)

Worker objects live on a heap keyed by an object id (`wid`), because
`worker_store` holds references and a replaced worker object persists.
Likewise every `asyncio.Task` ever spawned stays on the `tasks` ledger with a
`terminated` flag, so claims can speak about a task after it left
`task_store`. -/

/-- An `asyncio.Task`: its owning worker object and whether the coroutine has
fully finished (`task.done()` after `cancel()` + `await`). -/
structure TaskRec where
  owner : Nat
  terminated : Bool
deriving DecidableEq

/-- The module-level mutable state: `camera_store`, `worker_store` and
`task_store`, the worker-object heap and the task ledger, fresh-id counters,
the event sink, and the metrics sink. -/
structure SysState where
  camera_store : List (String × Camera)
  workers : List (Nat × CameraWorker)
  worker_store : List (String × Nat)
  task_store : List (String × Nat)
  tasks : List (Nat × TaskRec)
  nextW : Nat
  nextT : Nat
  events : List Event
  metrics : List TraceItem
deriving DecidableEq

def SysState.empty : SysState :=
  { camera_store := [], workers := [], worker_store := [], task_store := []
    tasks := [], nextW := 0, nextT := 0, events := [], metrics := [] }

/-- Dereference a worker object. -/
def SysState.getWorker (s : SysState) (wid : Nat) : Option CameraWorker :=
  alget s.workers wid

/-- Mutate a worker object in place. -/
def SysState.setWorker (s : SysState) (wid : Nat) (w : CameraWorker) : SysState :=
  { s with workers := alupdate s.workers wid (fun _ => w) }

/-- `CameraWorker.start` (lines 86-92): return if already running; otherwise
clear the stop event, spawn the read-loop task, record it in `task_store`, and
set the running flag. -/
def CameraWorker.start (s : SysState) (wid : Nat) : SysState :=
  match s.getWorker wid with
  | none => s
  | some w =>
    if w.is_running then s
    else
      let s1 := s.setWorker wid { w with stop_event := false, is_running := true }
      { s1 with tasks := s1.tasks ++ [(s1.nextT, { owner := wid, terminated := false })]
                task_store := alset s1.task_store w.camera_id s1.nextT
                nextT := s1.nextT + 1 }

/-- `CameraWorker.stop` (lines 94-103): return if not running or no task is
recorded for this camera id; otherwise set the stop event, pop the task,
cancel it and await its termination, then clear the running flag. -/
def CameraWorker.stop (s : SysState) (wid : Nat) : SysState :=
  match s.getWorker wid with
  | none => s
  | some w =>
    if w.is_running = false then s
    else
      match alget s.task_store w.camera_id with
      | none => s
      | some tid =>
        let s1 := { s with task_store := aldel s.task_store w.camera_id
                           tasks := alupdate s.tasks tid (fun t => { t with terminated := true }) }
        s1.setWorker wid { w with stop_event := true, is_running := false }

/-- `stop_worker(camera_id)` (lines 267-270). -/
def stop_worker (s : SysState) (camera_id : String) : SysState :=
  match alget s.worker_store camera_id with
  | none => s
  | some wid =>
    let s1 := CameraWorker.stop s wid
    { s1 with worker_store := aldel s1.worker_store camera_id }

/-- Python truthiness of an `Optional[str]` (`None` and `""` are falsy). -/
def truthy : Option String → Bool
  | none => false
  | some u => u != ""

/-- `start_worker(camera_id, source_type, source_url=None)` (lines 252-265). -/
def start_worker (s : SysState) (camera_id source_type : String)
    (source_url : Option String) : SysState :=
  let s1 := if alcontains s.worker_store camera_id then stop_worker s camera_id else s
  if (source_type == "rtsp" || source_type == "mjpeg") && truthy source_url then
    match source_url with
    | none => s1
    | some u =>
      let w := { CameraWorker.init camera_id u 10 with source_type := source_type }
      let s2 := { s1 with workers := s1.workers ++ [(s1.nextW, w)]
                          worker_store := alset s1.worker_store camera_id s1.nextW
                          nextW := s1.nextW + 1 }
      CameraWorker.start s2 s1.nextW
  else if source_type == "http_push" then
    let w := { CameraWorker.init camera_id "" 10 with
               source_type := "http_push", is_running := true }
    { s1 with workers := s1.workers ++ [(s1.nextW, w)]
              worker_store := alset s1.worker_store camera_id s1.nextW
              nextW := s1.nextW + 1
              metrics := s1.metrics ++ [TraceItem.metricStatus camera_id true] }
  else s1

/-- Does this registration start a worker?  (`register_camera`'s branches:
a pull source with a truthy URL, or a push source.) -/
def startable (cam : Camera) : Bool :=
  ((cam.source_type == "rtsp" || cam.source_type == "mjpeg") && truthy cam.source_url)
    || cam.source_type == "http_push"

/-- `register_camera(camera)` (lines 278-286).  `_save_cameras_to_db` is the
external persistence collaborator (spec section 1, out of scope) and touches
none of the modelled state. -/
def register_camera (s : SysState) (camera : Camera) : SysState :=
  let s1 := if alcontains s.camera_store camera.id then stop_worker s camera.id else s
  let s2 := { s1 with camera_store := alset s1.camera_store camera.id camera }
  if (camera.source_type == "rtsp" || camera.source_type == "mjpeg")
      && truthy camera.source_url then
    start_worker s2 camera.id camera.source_type camera.source_url
  else if camera.source_type == "http_push" then
    start_worker s2 camera.id "http_push" none
  else s2

/-! ## On-demand frame read and HTTP push ingestion -/

/-- `CameraWorker.get_latest_frame_jpeg` (lines 225-230).  The buffer entry is
unpacked as `frame, _ = latest_item`: on a `(frame, timestamp)` tuple this
binds the frame, which `cv2.imencode` then encodes (encoding is modelled as the
identity on the image).  On a bare `numpy` frame, tuple unpacking iterates the
array's first axis, which raises `ValueError` unless the image has exactly two
rows (in which case `frame` is bound to row 0). -/
def get_latest_frame_jpeg (w : CameraWorker) : Except String (Option ColorImage) :=
  match w.buffer.get_latest with
  | none => Except.ok none
  | some (BufEntry.pair frame _) => Except.ok (some frame)
  | some (BufEntry.bare frame) =>
    if frame.length = 2 then Except.ok (some (frame.take 1))
    else Except.error "ValueError"

/-- `http_push_ingest` (`app/api/cameras.py` lines 82-140).  The response is
`Except (status, detail) current_time`.  Notes kept faithful to the source:
  * a missing worker makes `worker.buffer` raise `AttributeError`, which the
    blanket `except Exception` turns into a 500;
  * a decode failure raises `HTTPException(400)` inside the `try`, which the
    same handler re-wraps as a 500;
  * `timestamp if timestamp else time.time()` treats `0.0` as falsy;
  * `redis_publisher.publish(...)` is an async coroutine invoked WITHOUT
    `await` (line 131): the coroutine object is created and discarded, so the
    publish never executes and no event reaches the sink. -/
def http_push_ingest (s : SysState) (camera_id : String)
    (payload : Option ColorImage) (timestamp : Option Int) (now : Int) :
    SysState × Except (Nat × String) Int :=
  match alget s.camera_store camera_id with
  | none => (s, Except.error (404, "Camera not found. Please register it first."))
  | some camera =>
    if camera.source_type != "http_push" then
      (s, Except.error (400, "This camera is not configured for HTTP_PUSH ingestion."))
    else
      match alget s.worker_store camera_id with
      | none => (s, Except.error (500, "AttributeError"))
      | some wid =>
        match s.getWorker wid with
        | none => (s, Except.error (500, "AttributeError"))
        | some w =>
          match payload with
          | none => (s, Except.error (500, "Could not decode image file."))
          | some frame =>
            let s1 := s.setWorker wid
              { w with buffer := w.buffer.put (BufEntry.bare frame) }
            let current_time : Int :=
              match timestamp with
              | some t => if t = 0 then now else t
              | none => now
            (s1, Except.ok current_time)

/-- Test fixture for the cooldown claims: a worker mid-stream holding
reference frame `[7]`, inference cooldown active until t = 100, frame-skip
counter at 5 (so the next frame passes the counter gate). -/
def cooldownState : RunState :=
  { w := { CameraWorker.init "cam" "u" 10 with
           frame_counter := 5, yolo_trigger_cooldown_end := 100,
           motion_last_frame := some [7] }
    camera_store := [], log := [], pubIdx := 0 }

/-- Test fixture: a pull camera registration. -/
def camRtsp : Camera :=
  { id := "cam", source_type := "rtsp", source_url := some "rtsp://a",
    status := "registered" }

/-- Test fixture: a second pull registration under the same identity. -/
def camRtsp2 : Camera :=
  { id := "cam", source_type := "rtsp", source_url := some "rtsp://b",
    status := "registered" }

/-- Test fixture: a discovery-kind registration under the same identity (the
API layer accepts it; `register_camera` starts no worker for it). -/
def camOnvif : Camera :=
  { id := "cam", source_type := "onvif", source_url := none,
    status := "registered" }

/-- Test fixture: a push camera registration. -/
def camPush1 : Camera :=
  { id := "cam_1", source_type := "http_push", source_url := none,
    status := "registered" }

/-! # Theorems

First general lemmas about the embedded operations, then one theorem (plus
witness / counterexample) per claim. -/

/-! ## Ring buffer lemmas -/

theorem CircularBuffer.put_size_le {α : Type} (b : CircularBuffer α) (x : α) :
    (b.put x).size ≤ b.capacity := by
  simp only [CircularBuffer.put, CircularBuffer.size, List.length_drop,
    List.length_append, List.length_cons, List.length_nil]
  omega

theorem CircularBuffer.foldl_put_buf {α : Type} (xs : List α) :
    ∀ b : CircularBuffer α, b.buf.length ≤ b.capacity →
      (xs.foldl CircularBuffer.put b).buf
        = (b.buf ++ xs).drop (b.buf.length + xs.length - b.capacity) := by
  induction xs with
  | nil =>
    intro b hb
    have h0 : b.buf.length - b.capacity = 0 := by omega
    simp [h0]
  | cons x xs ih =>
    intro b hb
    rw [List.foldl_cons, ih (b.put x) (CircularBuffer.put_size_le b x)]
    have hcap : (b.put x).capacity = b.capacity := rfl
    have hbuf : (b.put x).buf
        = (b.buf ++ [x]).drop (b.buf.length + 1 - b.capacity) := rfl
    rw [hcap, hbuf]
    have hle : b.buf.length + 1 - b.capacity ≤ (b.buf ++ [x]).length := by
      simp only [List.length_append, List.length_cons, List.length_nil]
      omega
    rw [← List.drop_append_of_le_length hle, List.drop_drop]
    have harr : b.buf ++ [x] ++ xs = b.buf ++ x :: xs := by simp
    rw [harr]
    congr 1
    simp only [List.length_drop, List.length_append, List.length_cons,
      List.length_nil]
    omega

theorem CircularBuffer.foldl_put_capacity {α : Type} (xs : List α)
    (b : CircularBuffer α) :
    (xs.foldl CircularBuffer.put b).capacity = b.capacity := by
  induction xs generalizing b with
  | nil => rfl
  | cons x xs ih => rw [List.foldl_cons, ih]; rfl

/-! ## Motion pipeline lemmas: a zero mask stays zero through the pipeline -/

theorem absdiff_self_zero (g : List Nat) : ∀ x ∈ absdiff g g, x = 0 := by
  induction g with
  | nil => simp [absdiff]
  | cons y g ih =>
    intro x hx
    simp only [absdiff, List.zipWith_cons_cons] at hx
    rcases List.mem_cons.mp hx with h | h
    · omega
    · exact ih x h

theorem thresholdBin_zero (t m : Nat) (l : List Nat) (h : ∀ x ∈ l, x = 0) :
    ∀ y ∈ thresholdBin t m l, y = 0 := by
  intro y hy
  rcases List.mem_map.mp hy with ⟨x, hx, rfl⟩
  rw [h x hx]
  simp

theorem zipWith_max_zero (a b : List Nat) (ha : ∀ x ∈ a, x = 0)
    (hb : ∀ x ∈ b, x = 0) : ∀ y ∈ List.zipWith max a b, y = 0 := by
  induction a generalizing b with
  | nil => simp
  | cons x a ih =>
    cases b with
    | nil => simp
    | cons z b =>
      intro y hy
      simp only [List.zipWith_cons_cons] at hy
      rcases List.mem_cons.mp hy with h | h
      · have h1 : x = 0 := ha x (by simp)
        have h2 : z = 0 := hb z (by simp)
        omega
      · exact ih b (fun u hu => ha u (List.mem_cons_of_mem _ hu))
          (fun u hu => hb u (List.mem_cons_of_mem _ hu)) y h

theorem dilate1_zero (l : List Nat) (h : ∀ x ∈ l, x = 0) :
    ∀ y ∈ dilate1 l, y = 0 := by
  apply zipWith_max_zero
  · apply zipWith_max_zero _ _ h
    intro x hx
    rcases List.mem_cons.mp hx with h' | h'
    · exact h'
    · exact h x h'
  · intro x hx
    rcases List.mem_append.mp hx with h' | h'
    · exact h x (List.mem_of_mem_drop h')
    · simpa using h'

theorem dilate_zero (n : Nat) (l : List Nat) (h : ∀ x ∈ l, x = 0) :
    ∀ y ∈ dilate n l, y = 0 := by
  induction n generalizing l with
  | zero => exact h
  | succ n ih => exact ih (dilate1 l) (dilate1_zero l h)

theorem runsAux_zero (l : List Nat) (h : ∀ x ∈ l, x = 0) : runsAux l 0 = [] := by
  induction l with
  | nil => rfl
  | cons x l ih =>
    have hx : x = 0 := h x (by simp)
    simp only [runsAux, hx, if_pos rfl]
    exact ih (fun u hu => h u (by simp [hu]))

/-- The motion detector on a current frame identical to the held reference:
the whole pipeline produces an all-zero mask, hence no contour. -/
theorem detect_simple_motion_self (g : List Nat) :
    detect_simple_motion (some g) g = (false, some g) := by
  have hz : ∀ y ∈ dilate 2 (thresholdBin 25 255 (absdiff g g)), y = 0 :=
    dilate_zero 2 _ (thresholdBin_zero 25 255 _ (absdiff_self_zero g))
  simp only [detect_simple_motion, contourAreas, runsAux_zero _ hz, List.any_nil]

/-! ## C4 — ring buffer: size, latest, order, bound -/

/-- C4 counterexample.  The claim quantifies over every capacity `C`; at
`C = 0` (`deque(maxlen=0)` holds nothing) one `put` leaves the buffer empty,
so `get_latest()` is `None` rather than the most recently put entry. -/
theorem C4_counterexample :
    ((CircularBuffer.empty Nat 0).put 7).get_latest ≠ some 7 := by decide

/-- C4 (amended): for every ring buffer of capacity `C ≥ 1` and every sequence
of `N ≥ 1` puts, afterwards the length equals `min N C`, `get_latest()` is the
most recently put entry, and `get_all()` returns the held entries oldest to
newest (the last `min N C` puts in order); moreover a `put` never leaves the
length above the capacity. -/
theorem C4_ring_buffer_amended {α : Type} (C : Nat) (xs : List α)
    (hC : 1 ≤ C) (hN : xs ≠ []) :
    ((xs.foldl CircularBuffer.put (CircularBuffer.empty α C)).size
        = min xs.length C
      ∧ (xs.foldl CircularBuffer.put (CircularBuffer.empty α C)).get_latest
          = some (xs.getLast hN)
      ∧ (xs.foldl CircularBuffer.put (CircularBuffer.empty α C)).get_all
          = xs.drop (xs.length - C))
    ∧ ∀ (b : CircularBuffer α) (x : α), (b.put x).size ≤ b.capacity := by
  have hbuf : (xs.foldl CircularBuffer.put (CircularBuffer.empty α C)).buf
      = xs.drop (xs.length - C) := by
    rw [CircularBuffer.foldl_put_buf xs (CircularBuffer.empty α C)
      (by simp [CircularBuffer.empty])]
    simp [CircularBuffer.empty]
  have hlen : 1 ≤ xs.length := List.length_pos.mpr hN
  refine ⟨⟨?_, ?_, ?_⟩, fun b x => CircularBuffer.put_size_le b x⟩
  · rw [CircularBuffer.size, hbuf, List.length_drop]
    omega
  · rw [CircularBuffer.get_latest, hbuf]
    have hne : xs.drop (xs.length - C) ≠ [] := by
      apply List.ne_nil_of_length_pos
      rw [List.length_drop]
      omega
    calc (xs.drop (xs.length - C)).getLast?
        = (xs.take (xs.length - C) ++ xs.drop (xs.length - C)).getLast? :=
          (List.getLast?_append_of_ne_nil _ hne).symm
      _ = xs.getLast? := by rw [List.take_append_drop]
      _ = some (xs.getLast hN) := List.getLast?_eq_getLast xs hN
  · rw [CircularBuffer.get_all, hbuf]

/-- Witness for C4 (amended) at `C = 2`, puts `[1203, 7, 9]`. -/
theorem C4_ring_buffer_amended_witness :
    (1 ≤ 2 ∧ ([1203, 7, 9] : List Nat) ≠ []) ∧
    ((([1203, 7, 9] : List Nat).foldl CircularBuffer.put
        (CircularBuffer.empty Nat 2)).size = min ([1203, 7, 9] : List Nat).length 2
      ∧ (([1203, 7, 9] : List Nat).foldl CircularBuffer.put
          (CircularBuffer.empty Nat 2)).get_latest
          = some (([1203, 7, 9] : List Nat).getLast (by decide))
      ∧ (([1203, 7, 9] : List Nat).foldl CircularBuffer.put
          (CircularBuffer.empty Nat 2)).get_all
          = ([1203, 7, 9] : List Nat).drop (([1203, 7, 9] : List Nat).length - 2))
    ∧ ∀ (b : CircularBuffer Nat) (x : Nat), (b.put x).size ≤ b.capacity :=
  ⟨⟨by decide, by decide⟩,
    C4_ring_buffer_amended 2 [1203, 7, 9] (by decide) (by decide)⟩

/-! ## Frame-processing step and fold lemmas -/

theorem detect_none_simp (x : List Nat) :
    detect_simple_motion none x = (false, some x) := rfl

theorem detect_self_simp (x : List Nat) :
    detect_simple_motion (some x) x = (false, some x) := detect_simple_motion_self x

set_option maxHeartbeats 1000000 in
/-- When every publish succeeds, `_process_frame` acts on the `FrameView`
projection as `process_frame_view`, and leaves the gating parameters
unchanged. -/
theorem process_frame_view_spec (pubs : Nat → Bool) (hAll : ∀ i, pubs i = true)
    (st : RunState) (f : ColorImage) (ts now : Int) :
    (resState (process_frame pubs st f ts now)).view
      = process_frame_view st.w.person_detection_enabled st.w.frames_to_skip
          st.w.EVENT_PUB_INTERVAL st.view f now
    ∧ (resState (process_frame pubs st f ts now)).w.person_detection_enabled
        = st.w.person_detection_enabled
    ∧ (resState (process_frame pubs st f ts now)).w.frames_to_skip = st.w.frames_to_skip
    ∧ (resState (process_frame pubs st f ts now)).w.EVENT_PUB_INTERVAL
        = st.w.EVENT_PUB_INTERVAL := by
  by_cases h1 : st.w.EVENT_PUB_INTERVAL < now - st.w.last_event_pub_time <;>
  by_cases h2 : st.w.person_detection_enabled = true <;>
  by_cases h3 : st.w.frames_to_skip < st.w.frame_counter + 1 <;>
  by_cases h4 : st.w.yolo_trigger_cooldown_end ≤ now <;>
  by_cases h5 : (detect_simple_motion st.w.motion_last_frame (grayBlur f)).1 = true <;>
  simp [process_frame, publish, process_frame_view, RunState.view, resState, hAll,
    h1, h2, h3, h4, h5, Except.bind, countYolo, countMotionChecked,
    List.countP_append, List.countP_cons]

set_option maxHeartbeats 1000000 in
/-- When every publish succeeds, `_process_frame` raises nothing. -/
theorem process_frame_eq_ok (pubs : Nat → Bool) (hAll : ∀ i, pubs i = true)
    (st : RunState) (f : ColorImage) (ts now : Int) :
    process_frame pubs st f ts now
      = Except.ok (resState (process_frame pubs st f ts now)) := by
  by_cases h1 : st.w.EVENT_PUB_INTERVAL < now - st.w.last_event_pub_time <;>
  by_cases h2 : st.w.person_detection_enabled = true <;>
  by_cases h3 : st.w.frames_to_skip < st.w.frame_counter + 1 <;>
  by_cases h4 : st.w.yolo_trigger_cooldown_end ≤ now <;>
  by_cases h5 : (detect_simple_motion st.w.motion_last_frame (grayBlur f)).1 = true <;>
  simp [process_frame, publish, resState, hAll, h1, h2, h3, h4, h5, Except.bind]

/-- Feeding frames acts on the projection as a fold of `process_frame_view`. -/
theorem feed_frames_view (pubs : Nat → Bool) (hAll : ∀ i, pubs i = true) :
    ∀ (items : List (Int × ColorImage)) (st : RunState),
    (resState (feed_frames pubs items st)).view
      = items.foldl (fun v p => process_frame_view st.w.person_detection_enabled
          st.w.frames_to_skip st.w.EVENT_PUB_INTERVAL v p.2 p.1) st.view := by
  intro items
  induction items with
  | nil => intro st; rfl
  | cons it rest ih =>
    intro st
    obtain ⟨t, f⟩ := it
    obtain ⟨st', hok⟩ : ∃ st', process_frame pubs st f t t = Except.ok st' :=
      ⟨_, process_frame_eq_ok pubs hAll st f t t⟩
    have hres : resState (process_frame pubs st f t t) = st' := by
      rw [hok]
      rfl
    have hspec := process_frame_view_spec pubs hAll st f t t
    rw [hres] at hspec
    simp only [feed_frames, hok, Except.bind, List.foldl_cons]
    rw [ih st']
    rw [hspec.1, hspec.2.1, hspec.2.2.1, hspec.2.2.2]

set_option maxHeartbeats 4000000 in
set_option maxRecDepth 4000 in
/-- Scenario D of the spec, run on a fresh worker: 20 frames of `f` followed by
one frame of `g`, inference cooldown elapsed, frame-skip 5, publishes
succeeding.  Zero deep-inference invocations occur, and the motion detector is
invoked exactly three times (frames 6, 12 and 18): the gating
`frame_counter > frames_to_skip` runs the detector only on every sixth frame,
so frame 21 is never examined. -/
theorem scenario_view (pubs : Nat → Bool) (hAll : ∀ i, pubs i = true)
    (f g : ColorImage) :
    (resState (feed_frames pubs (List.replicate 20 ((2 : Int), f) ++ [((2 : Int), g)])
      { w := CameraWorker.init "cam" "url" 10, camera_store := [], log := [],
        pubIdx := 0 })).view.yolo_count = 0
    ∧ (resState (feed_frames pubs (List.replicate 20 ((2 : Int), f) ++ [((2 : Int), g)])
      { w := CameraWorker.init "cam" "url" 10, camera_store := [], log := [],
        pubIdx := 0 })).view.mc_count = 3 := by
  have hrep : List.replicate 20 ((2 : Int), f) ++ [((2 : Int), g)]
      = [(2, f), (2, f), (2, f), (2, f), (2, f), (2, f), (2, f), (2, f), (2, f), (2, f),
         (2, f), (2, f), (2, f), (2, f), (2, f), (2, f), (2, f), (2, f), (2, f), (2, f),
         (2, g)] := rfl
  rw [hrep, feed_frames_view pubs hAll]
  have he : ({ w := CameraWorker.init "cam" "url" 10, camera_store := [], log := [],
               pubIdx := 0 } : RunState).w.person_detection_enabled = true := rfl
  have hs : ({ w := CameraWorker.init "cam" "url" 10, camera_store := [], log := [],
               pubIdx := 0 } : RunState).w.frames_to_skip = 5 := rfl
  have hi : ({ w := CameraWorker.init "cam" "url" 10, camera_store := [], log := [],
               pubIdx := 0 } : RunState).w.EVENT_PUB_INTERVAL = 1 := rfl
  have hv : ({ w := CameraWorker.init "cam" "url" 10, camera_store := [], log := [],
               pubIdx := 0 } : RunState).view
      = { frame_counter := 0, motion_last_frame := none, yolo_trigger_cooldown_end := 0,
          last_event_pub_time := 0, mc_count := 0, yolo_count := 0 } := rfl
  rw [he, hs, hi, hv]
  constructor <;>
  simp [process_frame_view, detect_none_simp, detect_self_simp]

/-! ## Constant-image lemmas for the pixel pipeline -/
theorem zipWith_replicate_min {α β γ : Type} (f : α → β → γ) (a : α) (b : β) :
    ∀ (n m : Nat), List.zipWith f (List.replicate n a) (List.replicate m b)
      = List.replicate (min n m) (f a b) := by
  intro n
  induction n with
  | zero => intro m; simp
  | succ n ih =>
    intro m
    cases m with
    | zero => simp
    | succ m =>
      simp only [List.replicate_succ, List.zipWith_cons_cons, ih, Nat.succ_min_succ]

theorem getLastD_replicate (c : Nat) : ∀ (n : Nat) (d : Nat),
    (List.replicate (n + 1) c).getLastD d = c := by
  intro n
  induction n with
  | zero => intro d; rfl
  | succ n ih =>
    intro d
    rw [List.replicate_succ, List.getLastD_cons]
    exact ih c

theorem gaussianBlurApprox_replicate (c : Nat) : ∀ n,
    gaussianBlurApprox (List.replicate n c) = List.replicate n c := by
  intro n
  cases n with
  | zero => rfl
  | succ n =>
    unfold gaussianBlurApprox
    have h1 : (List.replicate (n + 1) c).headD 0 :: List.replicate (n + 1) c
        = List.replicate (n + 2) c := rfl
    have h2 : (List.replicate (n + 1) c).drop 1 ++ [(List.replicate (n + 1) c).getLastD 0]
        = List.replicate (n + 1) c := by
      rw [getLastD_replicate, List.drop_replicate]
      show List.replicate n c ++ [c] = _
      rw [← List.replicate_succ']
    rw [h1, h2, zipWith_replicate_min, zipWith_replicate_min, List.map_replicate]
    have hmin : min (min (n + 1) (n + 2)) (n + 1) = n + 1 := by omega
    rw [hmin]
    congr 1
    have h3 : c + c + c = 3 * c := by ring
    rw [h3]
    exact Nat.mul_div_cancel_left c (by norm_num)

theorem cvtColorGray_replicate_row (n : Nat) (p : BGRPixel) :
    cvtColorGray [List.replicate n p]
      = List.replicate n ((299 * p.r + 587 * p.g + 114 * p.b) / 1000) := by
  simp [cvtColorGray, List.map_replicate]

theorem grayBlur_replicate (n : Nat) (p : BGRPixel) :
    grayBlur [List.replicate n p]
      = List.replicate n ((299 * p.r + 587 * p.g + 114 * p.b) / 1000) := by
  rw [grayBlur, cvtColorGray_replicate_row, gaussianBlurApprox_replicate]

theorem zipWith_max_replicate_cons (c : Nat) : ∀ (n x : Nat), x ≤ c →
    List.zipWith max (List.replicate n c) (x :: List.replicate n c)
      = List.replicate n c := by
  intro n
  induction n with
  | zero => intro x hx; rfl
  | succ n ih =>
    intro x hx
    rw [List.replicate_succ]
    show max c x :: List.zipWith max (List.replicate n c) (c :: List.replicate n c)
      = c :: List.replicate n c
    rw [Nat.max_eq_left hx, ih c (le_refl c)]

theorem zipWith_max_replicate_append (c : Nat) : ∀ n,
    List.zipWith max (List.replicate (n + 1) c) (List.replicate n c ++ [0])
      = List.replicate (n + 1) c := by
  intro n
  induction n with
  | zero => simp
  | succ n ih =>
    rw [List.replicate_succ (n := n + 1), List.replicate_succ (n := n)]
    show max c c :: List.zipWith max (List.replicate (n + 1) c) (List.replicate n c ++ [0])
      = c :: List.replicate (n + 1) c
    rw [Nat.max_self, ih]

theorem dilate1_replicate (n c : Nat) :
    dilate1 (List.replicate (n + 1) c) = List.replicate (n + 1) c := by
  unfold dilate1
  rw [zipWith_max_replicate_cons c (n + 1) 0 (Nat.zero_le c)]
  rw [List.drop_replicate]
  show List.zipWith max (List.replicate (n + 1) c) (List.replicate n c ++ [0]) = _
  exact zipWith_max_replicate_append c n

theorem dilate_replicate (k : Nat) : ∀ (n c : Nat),
    dilate k (List.replicate (n + 1) c) = List.replicate (n + 1) c := by
  induction k with
  | zero => intro n c; rfl
  | succ k ih =>
    intro n c
    show dilate k (dilate1 (List.replicate (n + 1) c)) = _
    rw [dilate1_replicate, ih]

theorem runsAux_replicate (c : Nat) (hc : c ≠ 0) : ∀ (n acc : Nat),
    runsAux (List.replicate (n + 1) c) acc = [acc + (n + 1)] := by
  intro n
  induction n with
  | zero => intro acc; simp [runsAux, hc]
  | succ n ih =>
    intro acc
    rw [List.replicate_succ]
    have hstep : runsAux (c :: List.replicate (n + 1) c) acc
        = runsAux (List.replicate (n + 1) c) (acc + 1) := by
      simp [runsAux, hc]
    rw [hstep, ih (acc + 1)]
    congr 1
    omega

theorem detect_replicate_fires (n : Nat) :
    (detect_simple_motion (some (List.replicate (n + 1501) 0))
      (List.replicate (n + 1501) 76)).1 = true := by
  have habs : absdiff (List.replicate (n + 1501) 0) (List.replicate (n + 1501) 76)
      = List.replicate (n + 1501) 76 := by
    rw [absdiff, zipWith_replicate_min]
    simp
  have hth : thresholdBin 25 255 (List.replicate (n + 1501) 76)
      = List.replicate (n + 1501) 255 := by
    simp [thresholdBin, List.map_replicate]
  have hrepl : n + 1501 = (n + 1500) + 1 := by omega
  simp only [detect_simple_motion, habs, hth, hrepl]
  rw [dilate_replicate 2 (n + 1500) 255, contourAreas,
    runsAux_replicate 255 (by norm_num) (n + 1500) 0]
  simp [settings]

/-! ## C9 — motion detector: identical frames, reference always replaced -/

/-- C9: with any held reference frame, a current frame identical to the
reference reports no motion; and on every call (cold start included) the
reference frame held afterwards is the current frame. -/
theorem C9_motion_reference_spec (g cur : List Nat) (st : Option (List Nat)) :
    detect_simple_motion (some g) g = (false, some g)
    ∧ (detect_simple_motion st cur).2 = some cur := by
  refine ⟨detect_simple_motion_self g, ?_⟩
  cases st <;> rfl

/-! ## C5 — frame-skip gating and scenario D -/

/-- C5 counterexample.  Scenario D run concretely: 20 identical 1600-pixel
frames followed by one frame whose whole 1600-pixel region moved (far above
`MOTION_MIN_AREA = 1500`, as the second conjunct certifies), with a fresh
worker (`frame_counter = 0`, cooldown elapsed, `frames_to_skip = 5`).  The
claim demands exactly one deep-inference invocation; the code performs zero,
because the detector only runs when `frame_counter > frames_to_skip`
(frames 6, 12, 18) and the moved frame arrives at position 21. -/
theorem C5_counterexample :
    countYolo (resState (feed_frames (fun _ => true)
      (List.replicate 20 ((2 : Int), ([List.replicate 1600 ⟨0, 0, 0⟩] : ColorImage))
        ++ [((2 : Int), ([List.replicate 1600 ⟨0, 0, 255⟩] : ColorImage))])
      { w := CameraWorker.init "cam" "url" 10, camera_store := [], log := [],
        pubIdx := 0 })).log = 0
    ∧ (detect_simple_motion (some (grayBlur [List.replicate 1600 ⟨0, 0, 0⟩]))
        (grayBlur [List.replicate 1600 ⟨0, 0, 255⟩])).1 = true := by
  constructor
  · have hlink : ∀ st : RunState, st.view.yolo_count = countYolo st.log :=
      fun st => rfl
    rw [← hlink]
    exact (scenario_view (fun _ => true) (fun i => rfl)
      [List.replicate 1600 ⟨0, 0, 0⟩] [List.replicate 1600 ⟨0, 0, 255⟩]).1
  · rw [grayBlur_replicate, grayBlur_replicate]
    norm_num
    rw [show (1600 : Nat) = 99 + 1501 from by norm_num]
    exact detect_replicate_fires 99

/-- C5 (amended): with motion/inference enabled, the Motion Detector runs only
when the frame counter exceeds K (= `frames_to_skip` = 5), i.e. on every
(K+1)-th frame, and only if the inference cooldown has elapsed; consequently
feeding a worker 20 identical frames followed by one moved frame yields ZERO
motion-triggered deep-inference invocations — the detector fires at frames 6,
12 and 18 only, and the 21st frame is never examined. -/
theorem C5_frame_skip_amended (pubs : Nat → Bool) (hAll : ∀ i, pubs i = true)
    (f g : ColorImage) :
    countYolo (resState (feed_frames pubs
      (List.replicate 20 ((2 : Int), f) ++ [((2 : Int), g)])
      { w := CameraWorker.init "cam" "url" 10, camera_store := [], log := [],
        pubIdx := 0 })).log = 0
    ∧ countMotionChecked (resState (feed_frames pubs
      (List.replicate 20 ((2 : Int), f) ++ [((2 : Int), g)])
      { w := CameraWorker.init "cam" "url" 10, camera_store := [], log := [],
        pubIdx := 0 })).log = 3 := by
  have hy : ∀ st : RunState, st.view.yolo_count = countYolo st.log := fun st => rfl
  have hm : ∀ st : RunState, st.view.mc_count = countMotionChecked st.log := fun st => rfl
  refine ⟨?_, ?_⟩
  · rw [← hy]
    exact (scenario_view pubs hAll f g).1
  · rw [← hm]
    exact (scenario_view pubs hAll f g).2

/-- Witness for C5 (amended) with an always-succeeding publisher and
one-pixel frames. -/
theorem C5_frame_skip_amended_witness :
    (∀ i, (fun _ : Nat => true) i = true)
    ∧ (countYolo (resState (feed_frames (fun _ : Nat => true)
        (List.replicate 20 ((2 : Int), ([[⟨1, 1, 1⟩]] : ColorImage))
          ++ [((2 : Int), ([[⟨200, 200, 200⟩]] : ColorImage))])
        { w := CameraWorker.init "cam" "url" 10, camera_store := [], log := [],
          pubIdx := 0 })).log = 0
      ∧ countMotionChecked (resState (feed_frames (fun _ : Nat => true)
        (List.replicate 20 ((2 : Int), ([[⟨1, 1, 1⟩]] : ColorImage))
          ++ [((2 : Int), ([[⟨200, 200, 200⟩]] : ColorImage))])
        { w := CameraWorker.init "cam" "url" 10, camera_store := [], log := [],
          pubIdx := 0 })).log = 3) :=
  ⟨fun i => rfl,
    C5_frame_skip_amended (fun _ => true) (fun i => rfl) [[⟨1, 1, 1⟩]] [[⟨200, 200, 200⟩]]⟩

/-! ## C6 — frames during the inference cooldown -/

/-- C6 counterexample.  A worker holding reference frame `[7]`, with the
inference cooldown active (`now = 2 < 100 = yolo_trigger_cooldown_end`) and the
frame-skip counter about to fire (`frame_counter = 5`), processes a frame whose
blurred grayscale is `[9]`.  The claim says the reference is still refreshed
with that frame and "no motion" reported; in the code the cooldown check sits
in `_process_frame` OUTSIDE the detector, so the detector is never called: the
reference stays `[7]` (stale), not `[9]`. -/
theorem C6_counterexample :
    (resState (process_frame (fun _ => true) cooldownState [[⟨9, 9, 9⟩]] 2 2)).w.motion_last_frame
        = some [7]
    ∧ grayBlur [[⟨9, 9, 9⟩]] = [9]
    ∧ countMotionChecked
        (resState (process_frame (fun _ => true) cooldownState [[⟨9, 9, 9⟩]] 2 2)).log = 0 := by
  refine ⟨by decide, by decide, by decide⟩

/-- C6 (amended): for every frame arriving while the inference cooldown is
active, the motion detector is NOT invoked at all — the reference frame is left
unchanged (not refreshed), so when the cooldown elapses motion is measured
against the reference stored at the last detector invocation, not against the
immediately preceding frame. -/
theorem C6_cooldown_amended (pubs : Nat → Bool) (st : RunState) (f : ColorImage)
    (ts now : Int) (hcool : now < st.w.yolo_trigger_cooldown_end) :
    (resState (process_frame pubs st f ts now)).w.motion_last_frame
        = st.w.motion_last_frame
    ∧ countMotionChecked (resState (process_frame pubs st f ts now)).log
        = countMotionChecked st.log := by
  have h4 : ¬ (st.w.yolo_trigger_cooldown_end ≤ now) := by omega
  by_cases h1 : st.w.EVENT_PUB_INTERVAL < now - st.w.last_event_pub_time <;>
  by_cases h2 : st.w.person_detection_enabled = true <;>
  by_cases h3 : st.w.frames_to_skip < st.w.frame_counter + 1 <;>
  by_cases hp : pubs st.pubIdx = true <;>
  simp [process_frame, publish, resState, h1, h2, h3, h4, hp, Except.bind,
    countMotionChecked, List.countP_append, List.countP_cons]

/-- Witness for C6 (amended) at the concrete cooldown-active state. -/
theorem C6_cooldown_amended_witness :
    ((2 : Int) < cooldownState.w.yolo_trigger_cooldown_end)
    ∧ ((resState (process_frame (fun _ => true) cooldownState [[⟨9, 9, 9⟩]] 2 2)).w.motion_last_frame
          = cooldownState.w.motion_last_frame
      ∧ countMotionChecked
          (resState (process_frame (fun _ => true) cooldownState [[⟨9, 9, 9⟩]] 2 2)).log
          = countMotionChecked cooldownState.log) :=
  ⟨by decide,
    C6_cooldown_amended (fun _ => true) cooldownState [[⟨9, 9, 9⟩]] 2 2 (by decide)⟩

/-! ## Run-loop lemmas, C2 and C3 -/

theorem process_frame_delay (pubs : Nat → Bool) (st : RunState) (f : ColorImage)
    (ts now : Int) :
    (resState (process_frame pubs st f ts now)).w.reconnect_delay
      = st.w.reconnect_delay
    ∧ (resState (process_frame pubs st f ts now)).w.stop_event = st.w.stop_event := by
  by_cases h1 : st.w.EVENT_PUB_INTERVAL < now - st.w.last_event_pub_time <;>
  by_cases h2 : st.w.person_detection_enabled = true <;>
  by_cases h3 : st.w.frames_to_skip < st.w.frame_counter + 1 <;>
  by_cases h4 : st.w.yolo_trigger_cooldown_end ≤ now <;>
  by_cases h5 : (detect_simple_motion st.w.motion_last_frame (grayBlur f)).1 = true <;>
  by_cases hp : pubs st.pubIdx = true <;>
  simp [process_frame, publish, resState, h1, h2, h3, h4, h5, hp, Except.bind]

theorem read_loop_delay (pubs : Nat → Bool) :
    ∀ (reads : List (Int × Option ColorImage)) (st : RunState),
    (resState (read_loop pubs reads st)).w.reconnect_delay = st.w.reconnect_delay := by
  intro reads
  induction reads with
  | nil => intro st; rfl
  | cons r rest ih =>
    intro st
    obtain ⟨t, fr⟩ := r
    by_cases hs : st.w.stop_event = true
    · simp [read_loop, hs, resState]
    · cases fr with
      | none =>
        simp only [read_loop, hs]
        by_cases hp : pubs st.pubIdx = true <;>
        simp [handle_disconnect, publish, resState, hp, hs]
      | some f =>
        simp only [read_loop, hs, Bool.false_eq_true, if_false]
        cases hok : process_frame pubs st f t t with
        | ok st' =>
          have hd := (process_frame_delay pubs st f t t).1
          rw [hok] at hd
          simp only [resState] at hd
          simp only [Except.bind]
          rw [ih st']
          exact hd
        | error st' =>
          have hd := (process_frame_delay pubs st f t t).1
          rw [hok] at hd
          simp only [resState] at hd
          simpa [resState, Except.bind] using hd


theorem handle_connect_ok (pubs : Nat → Bool) (hAll : ∀ i, pubs i = true)
    (t0 : Int) (stx : RunState) :
    handle_connect pubs t0 stx = Except.ok
      ({ stx with
         camera_store := setCameraStatus stx.camera_store stx.w.camera_id "connected",
         log := stx.log ++ [TraceItem.metricStatus stx.w.camera_id true,
             TraceItem.ev ⟨stx.w.camera_id, EventType.cameraConnected, t0, none⟩],
         pubIdx := stx.pubIdx + 1 } : RunState) := by
  simp [handle_connect, publish, hAll]

theorem after_loop_delay (pubs : Nat → Bool) (reads : List (Int × Option ColorImage))
    (st3 : RunState) :
    (match (read_loop pubs reads st3).map (fun st4 : RunState =>
          { st4 with log := st4.log ++ [TraceItem.capReleased] }) with
      | Except.ok st' => st'
      | Except.error st' =>
        { st' with log := st'.log ++ [TraceItem.sleep 5] }).w.reconnect_delay
      = st3.w.reconnect_delay := by
  have hd := read_loop_delay pubs reads st3
  cases hrl : read_loop pubs reads st3 with
  | ok stq =>
    rw [hrl] at hd
    simp only [resState] at hd
    simpa [Except.map] using hd
  | error stq =>
    rw [hrl] at hd
    simp only [resState] at hd
    simpa [Except.map] using hd

/-- C3: the reconnect delay starts at 1 s (constructor); a failed open emits
`camera.disconnected`, sleeps the current delay and then doubles it capped at
60 s; a successful open resets the delay to 1 s for the whole iteration; and
after the first failed open of an un-openable URL on a fresh worker the
disconnect event has been emitted and the delay has doubled from 1 to 2.
(Publishes are assumed to succeed; the event sink is an external
collaborator.) -/
theorem C3_backoff_discipline (pubs : Nat → Bool) (hAll : ∀ i, pubs i = true)
    (cid url : String) (cap : Nat) (st : RunState) (md : Nat × Nat × Int)
    (t0 : Int) (reads : List (Int × Option ColorImage)) :
    (CameraWorker.init cid url cap).reconnect_delay = 1
    ∧ run_iter pubs false md t0 reads st
        = { st with
            camera_store := setCameraStatus st.camera_store st.w.camera_id "disconnected",
            w := { st.w with reconnect_delay := min 60 (2 * st.w.reconnect_delay) },
            log := st.log ++ [TraceItem.metricStatus st.w.camera_id false,
                TraceItem.ev ⟨st.w.camera_id, EventType.cameraDisconnected, t0,
                  some ("Failed to open stream: " ++ st.w.stream_url)⟩,
                TraceItem.sleep st.w.reconnect_delay],
            pubIdx := st.pubIdx + 1 }
    ∧ (run_iter pubs true md t0 reads st).w.reconnect_delay = 1
    ∧ (run_iter pubs false md t0 reads
        { w := CameraWorker.init cid url cap, camera_store := [], log := [],
          pubIdx := 0 }).w.reconnect_delay = 2
    ∧ TraceItem.ev ⟨cid, EventType.cameraDisconnected, t0,
        some ("Failed to open stream: " ++ url)⟩
        ∈ (run_iter pubs false md t0 reads
          { w := CameraWorker.init cid url cap, camera_store := [], log := [],
            pubIdx := 0 }).log := by
  have hfail : ∀ (st1 : RunState), run_iter pubs false md t0 reads st1
      = { st1 with
          camera_store := setCameraStatus st1.camera_store st1.w.camera_id "disconnected",
          w := { st1.w with reconnect_delay := min 60 (2 * st1.w.reconnect_delay) },
          log := st1.log ++ [TraceItem.metricStatus st1.w.camera_id false,
              TraceItem.ev ⟨st1.w.camera_id, EventType.cameraDisconnected, t0,
                some ("Failed to open stream: " ++ st1.w.stream_url)⟩,
              TraceItem.sleep st1.w.reconnect_delay],
          pubIdx := st1.pubIdx + 1 } := by
    intro st1
    simp [run_iter, handle_disconnect, publish, hAll, Except.map]
  refine ⟨rfl, hfail st, ?_, ?_, ?_⟩
  · simp only [run_iter, if_true]
    rw [handle_connect_ok pubs hAll]
    simp only [Except.bind]
    rw [after_loop_delay]
  · rw [hfail]
    simp [CameraWorker.init]
  · rw [hfail]
    simp [CameraWorker.init]

/-- C2 counterexample.  A worker opens its stream (metadata 4x4@30),
`camera.connected` publishes fine, and then the rate-limited `frame.received`
publish for the first frame raises (`pubs` fails from index 1 on).  The trace
shows the claim false: no `motionChecked` item and `frame_counter = 0` (the
remaining frame-processing steps were aborted), only one frame ever buffered
(the second read never happens: the streaming loop terminated without
`capReleased`), and the loop-boundary handler slept 5 s. -/
theorem C2_counterexample :
    ((run_iter (fun i => i == 0) true (4, 4, 30) 9
      [(10, some [[⟨1, 2, 3⟩]]), (11, some [[⟨20, 30, 40⟩]])]
      { w := CameraWorker.init "cam" "rtsp://u" 10, camera_store := [], log := [],
        pubIdx := 0 }).log
      = [TraceItem.metricStatus "cam" true,
         TraceItem.ev ⟨"cam", EventType.cameraConnected, 9, none⟩,
         TraceItem.metricFrames "cam", TraceItem.metricLastTs "cam" 10,
         TraceItem.sleep 5])
    ∧ (run_iter (fun i => i == 0) true (4, 4, 30) 9
      [(10, some [[⟨1, 2, 3⟩]]), (11, some [[⟨20, 30, 40⟩]])]
      { w := CameraWorker.init "cam" "rtsp://u" 10, camera_store := [], log := [],
        pubIdx := 0 }).w.buffer.size = 1
    ∧ (run_iter (fun i => i == 0) true (4, 4, 30) 9
      [(10, some [[⟨1, 2, 3⟩]]), (11, some [[⟨20, 30, 40⟩]])]
      { w := CameraWorker.init "cam" "rtsp://u" 10, camera_store := [], log := [],
        pubIdx := 0 }).w.frame_counter = 0 := by
  refine ⟨by decide, by decide, by decide⟩

/-- C2 (amended): a failure of the event-publish call propagates out of
`_process_frame` — the remaining frame-processing steps (the motion/inference
stage) are skipped and the mutations made so far (buffer put, metrics, throttle
timestamp) stand; the inner streaming read loop is exited without processing
later reads and without releasing the capture; the worker's run loop catches
the exception at the loop boundary, sleeps 5 seconds and reconnects, so the
worker task itself survives with its stop flag untouched. -/
theorem C2_publish_failure_amended (pubs : Nat → Bool) (st : RunState)
    (frame : ColorImage) (ts now : Int) (rest : List (Int × Option ColorImage))
    (hdue : st.w.EVENT_PUB_INTERVAL < now - st.w.last_event_pub_time)
    (hfail : pubs st.pubIdx = false) (hstop : st.w.stop_event = false) :
    process_frame pubs st frame ts now = Except.error
      ({ st with
         w := { st.w with buffer := st.w.buffer.put (BufEntry.pair frame ts),
                          last_event_pub_time := now },
         log := st.log ++ [TraceItem.metricFrames st.w.camera_id,
                           TraceItem.metricLastTs st.w.camera_id ts],
         pubIdx := st.pubIdx + 1 } : RunState)
    ∧ read_loop pubs ((now, some frame) :: rest) st = Except.error
      ({ st with
         w := { st.w with buffer := st.w.buffer.put (BufEntry.pair frame now),
                          last_event_pub_time := now },
         log := st.log ++ [TraceItem.metricFrames st.w.camera_id,
                           TraceItem.metricLastTs st.w.camera_id now],
         pubIdx := st.pubIdx + 1 } : RunState)
    ∧ (∀ (st2 : RunState) (now2 t02 : Int) (frame2 : ColorImage) (wd ht : Nat) (fps : Int),
        pubs st2.pubIdx = true → pubs (st2.pubIdx + 1) = false →
        st2.w.stop_event = false →
        st2.w.EVENT_PUB_INTERVAL < now2 - st2.w.last_event_pub_time →
        run_iter pubs true (wd, ht, fps) t02 [(now2, some frame2)] st2
          = { st2 with
              w := { st2.w with stream_width := some wd, stream_height := some ht,
                                stream_fps := some fps, reconnect_delay := 1,
                                buffer := st2.w.buffer.put (BufEntry.pair frame2 now2),
                                last_event_pub_time := now2 },
              camera_store := setCameraStatus st2.camera_store st2.w.camera_id "connected",
              log := st2.log ++ [TraceItem.metricStatus st2.w.camera_id true,
                  TraceItem.ev ⟨st2.w.camera_id, EventType.cameraConnected, t02, none⟩,
                  TraceItem.metricFrames st2.w.camera_id,
                  TraceItem.metricLastTs st2.w.camera_id now2,
                  TraceItem.sleep 5],
              pubIdx := st2.pubIdx + 2 }) := by
  have hpf : ∀ (stx : RunState) (tsx : Int), stx.w = st.w → stx.pubIdx = st.pubIdx →
      process_frame pubs stx frame tsx now = Except.error
        ({ stx with
           w := { stx.w with buffer := stx.w.buffer.put (BufEntry.pair frame tsx),
                             last_event_pub_time := now },
           log := stx.log ++ [TraceItem.metricFrames stx.w.camera_id,
                              TraceItem.metricLastTs stx.w.camera_id tsx],
           pubIdx := stx.pubIdx + 1 } : RunState) := by
    intro stx tsx hw hpi
    simp [process_frame, publish, hw, hpi, hdue, hfail, Except.bind]
  refine ⟨hpf st ts rfl rfl, ?_, ?_⟩
  · simp only [read_loop, hstop, Bool.false_eq_true, if_false,
      hpf st now rfl rfl, Except.bind]
  · intro st2 now2 t02 frame2 wd ht fps hconn hfail2 hstop2 hdue2
    simp [run_iter, handle_connect, publish, process_frame, read_loop, hconn, hfail2,
      hstop2, hdue2, Except.bind, Except.map, setCameraStatus]

/-- Witness for C3 at an always-succeeding publisher, a fresh worker with an
un-openable URL, and an empty read horizon. -/
theorem C3_backoff_discipline_witness :
    (∀ i, (fun _ : Nat => true) i = true)
    ∧ (run_iter (fun _ => true) false (0, 0, 0) 5 []
        { w := CameraWorker.init "cam" "rtsp://bad" 10, camera_store := [], log := [],
          pubIdx := 0 }).w.reconnect_delay = 2
    ∧ TraceItem.ev ⟨"cam", EventType.cameraDisconnected, 5,
        some ("Failed to open stream: " ++ "rtsp://bad")⟩
        ∈ (run_iter (fun _ => true) false (0, 0, 0) 5 []
          { w := CameraWorker.init "cam" "rtsp://bad" 10, camera_store := [], log := [],
            pubIdx := 0 }).log :=
  ⟨fun i => rfl,
    (C3_backoff_discipline (fun _ => true) (fun i => rfl) "cam" "rtsp://bad" 10
      { w := CameraWorker.init "cam" "rtsp://bad" 10, camera_store := [], log := [],
        pubIdx := 0 } (0, 0, 0) 5 []).2.2.2.1,
    (C3_backoff_discipline (fun _ => true) (fun i => rfl) "cam" "rtsp://bad" 10
      { w := CameraWorker.init "cam" "rtsp://bad" 10, camera_store := [], log := [],
        pubIdx := 0 } (0, 0, 0) 5 []).2.2.2.2⟩

/-- Witness for C2 (amended): the always-failing publisher, one read at t = 10
against `cooldownState`, exercising the read-loop conjunct. -/
theorem C2_publish_failure_amended_witness :
    (cooldownState.w.EVENT_PUB_INTERVAL < 10 - cooldownState.w.last_event_pub_time
      ∧ (fun _ : Nat => false) cooldownState.pubIdx = false
      ∧ cooldownState.w.stop_event = false)
    ∧ read_loop (fun _ => false) [((10 : Int), some [[⟨9, 9, 9⟩]])] cooldownState
        = Except.error
          ({ cooldownState with
             w := { cooldownState.w with
                    buffer := cooldownState.w.buffer.put (BufEntry.pair [[⟨9, 9, 9⟩]] 10),
                    last_event_pub_time := 10 },
             log := cooldownState.log ++ [TraceItem.metricFrames cooldownState.w.camera_id,
                               TraceItem.metricLastTs cooldownState.w.camera_id 10],
             pubIdx := cooldownState.pubIdx + 1 } : RunState) :=
  ⟨⟨by decide, rfl, by decide⟩,
    (C2_publish_failure_amended (fun _ => false) cooldownState [[⟨9, 9, 9⟩]] 7 10 []
      (by decide) rfl (by decide)).2.1⟩

/-! ## Registry lemmas, C10, C8 and C1 -/

theorem alget_alset_self {κ β : Type} [BEq κ] [LawfulBEq κ] (m : List (κ × β))
    (k : κ) (v : β) : alget (alset m k v) k = some v := by
  induction m with
  | nil => simp [alset, alget]
  | cons p rest ih =>
    by_cases h : p.1 == k
    · simp [alset, alget, h]
    · simp [alset, alget, h, ih]

theorem alget_aldel_self {κ β : Type} [BEq κ] (m : List (κ × β)) (k : κ) :
    alget (aldel m k) k = none := by
  induction m with
  | nil => rfl
  | cons p rest ih =>
    by_cases h : p.1 == k
    · simp [aldel, h, ih]
    · simp [aldel, alget, h, ih]

theorem alget_alupdate_self {κ β : Type} [BEq κ] (m : List (κ × β)) (k : κ)
    (f : β → β) : alget (alupdate m k f) k = (alget m k).map f := by
  induction m with
  | nil => rfl
  | cons p rest ih =>
    by_cases h : p.1 == k
    · simp [alupdate, alget, h]
    · simp [alupdate, alget, h, ih]

theorem alget_alupdate_none {κ β : Type} [BEq κ] (m : List (κ × β)) (k k' : κ)
    (f : β → β) (h : alget m k' = none) : alget (alupdate m k f) k' = none := by
  induction m with
  | nil => rfl
  | cons p rest ih =>
    by_cases hpk : p.1 == k
    · by_cases hpk' : p.1 == k'
      · simp [alget, hpk'] at h
      · simp [alupdate, alget, hpk, hpk'] at h ⊢
        exact h
    · by_cases hpk' : p.1 == k'
      · simp [alget, hpk'] at h
      · simp [alget, hpk'] at h
        simp [alupdate, alget, hpk, hpk']
        exact ih h

theorem alget_append_some {κ β : Type} [BEq κ] (m m2 : List (κ × β)) (k : κ)
    (v : β) (h : alget m k = some v) : alget (m ++ m2) k = some v := by
  induction m with
  | nil => simp [alget] at h
  | cons p rest ih =>
    by_cases hpk : p.1 == k
    · simp [alget, hpk] at h ⊢
      exact h
    · simp [alget, hpk] at h ⊢
      exact ih h

theorem alget_append_none {κ β : Type} [BEq κ] (m m2 : List (κ × β)) (k : κ)
    (h : alget m k = none) : alget (m ++ m2) k = alget m2 k := by
  induction m with
  | nil => rfl
  | cons p rest ih =>
    by_cases hpk : p.1 == k
    · simp [alget, hpk] at h
    · simp [alget, hpk] at h ⊢
      exact ih h

/-- C10: `CameraWorker.start` on a worker whose running flag is already set
returns immediately — the state (worker fields, task store, task ledger) is
left completely unchanged, so no second read-loop task can be spawned. -/
theorem C10_start_noop_when_running (s : SysState) (wid : Nat) (w : CameraWorker)
    (hw : s.getWorker wid = some w) (hr : w.is_running = true) :
    CameraWorker.start s wid = s := by
  simp [CameraWorker.start, hw, hr]

/-- C8: `CameraWorker.stop` is idempotent — on an already-stopped worker it is
a no-op that changes nothing; and when the worker is running with a task
recorded under its camera id, after `stop()` returns the task handle has been
removed from the task store, the task has fully terminated (cancelled and
awaited — no frame-processing of that worker can still be in flight), and the
worker's running flag is cleared with the stop event set. -/
theorem C8_stop_spec (s : SysState) (wid : Nat) (w : CameraWorker) (tid : Nat)
    (t : TaskRec) (hw : s.getWorker wid = some w) :
    (w.is_running = false → CameraWorker.stop s wid = s)
    ∧ (w.is_running = true → alget s.task_store w.camera_id = some tid →
        alget s.tasks tid = some t →
        alget (CameraWorker.stop s wid).task_store w.camera_id = none
        ∧ alget (CameraWorker.stop s wid).tasks tid = some { t with terminated := true }
        ∧ (CameraWorker.stop s wid).getWorker wid
            = some { w with stop_event := true, is_running := false }) := by
  constructor
  · intro hnr
    simp [CameraWorker.stop, hw, hnr]
  · intro hr htid ht
    have hstop : CameraWorker.stop s wid
        = ({ s with task_store := aldel s.task_store w.camera_id,
                    tasks := alupdate s.tasks tid
                      (fun t0 => { t0 with terminated := true }) } : SysState).setWorker wid
            { w with stop_event := true, is_running := false } := by
      simp [CameraWorker.stop, hw, hr, htid]
    rw [hstop]
    refine ⟨?_, ?_, ?_⟩
    · simp [SysState.setWorker, alget_aldel_self]
    · simp [SysState.setWorker, alget_alupdate_self, ht]
    · simp only [SysState.setWorker, SysState.getWorker] at hw ⊢
      simp [alget_alupdate_self, hw]

theorem start_worker_pull_fresh (S : SysState) (cid sty u : String)
    (hnc : alget S.worker_store cid = none)
    (hfresh : alget S.workers S.nextW = none)
    (hsty : (sty == "rtsp" || sty == "mjpeg") = true) (hu : u ≠ "") :
    start_worker S cid sty (some u)
      = ⟨S.camera_store,
         alupdate (S.workers ++ [(S.nextW, { CameraWorker.init cid u 10 with source_type := sty })])
           S.nextW (fun _ => { CameraWorker.init cid u 10 with
             source_type := sty, stop_event := false, is_running := true }),
         alset S.worker_store cid S.nextW,
         alset S.task_store cid S.nextT,
         S.tasks ++ [(S.nextT, ⟨S.nextW, false⟩)],
         S.nextW + 1, S.nextT + 1, S.events, S.metrics⟩ := by
  have hget : ∀ (wn : CameraWorker),
      alget (S.workers ++ [(S.nextW, wn)]) S.nextW = some wn := by
    intro wn
    rw [alget_append_none _ _ _ hfresh]
    simp [alget]
  simp [start_worker, alcontains, hnc, hsty, truthy, hu, CameraWorker.start,
    SysState.getWorker, SysState.setWorker, hget, CameraWorker.init]

theorem start_worker_push_fresh (S : SysState) (cid : String)
    (hnc : alget S.worker_store cid = none) :
    start_worker S cid "http_push" none
      = ⟨S.camera_store,
         S.workers ++ [(S.nextW, { CameraWorker.init cid "" 10 with
           source_type := "http_push", is_running := true })],
         alset S.worker_store cid S.nextW,
         S.task_store, S.tasks, S.nextW + 1, S.nextT,
         S.events, S.metrics ++ [TraceItem.metricStatus cid true]⟩ := by
  simp [start_worker, alcontains, hnc, truthy]

theorem stop_worker_contains_eq (S : SysState) (cid : String)
    (h : alcontains S.worker_store cid = true) (sty : String) (url : Option String) :
    start_worker S cid sty url = start_worker (stop_worker S cid) cid sty url := by
  obtain ⟨wid0, hwid0⟩ : ∃ wid0, alget S.worker_store cid = some wid0 := by
    cases hg : alget S.worker_store cid with
    | none => simp [alcontains, hg] at h
    | some x => exact ⟨x, rfl⟩
  have hdel : alget (stop_worker S cid).worker_store cid = none := by
    simp only [stop_worker, hwid0]
    exact alget_aldel_self _ _
  have hc2 : alcontains (stop_worker S cid).worker_store cid = false := by
    simp [alcontains, hdel]
  simp only [start_worker, h, hc2, if_true, Bool.false_eq_true, if_false]

theorem stop_worker_shape (S : SysState) (cid : String) (wid : Nat) (w : CameraWorker)
    (hws : alget S.worker_store cid = some wid)
    (hw : S.getWorker wid = some w)
    (hcid : w.camera_id = cid)
    (hrun : w.is_running = true) :
    (∀ tid, alget S.task_store cid = some tid →
      stop_worker S cid
        = ⟨S.camera_store,
           alupdate S.workers wid
             (fun _ => { w with stop_event := true, is_running := false }),
           aldel S.worker_store cid, aldel S.task_store cid,
           alupdate S.tasks tid (fun t0 => { t0 with terminated := true }),
           S.nextW, S.nextT, S.events, S.metrics⟩)
    ∧ (alget S.task_store cid = none →
      stop_worker S cid = { S with worker_store := aldel S.worker_store cid }) := by
  constructor
  · intro tid htid
    simp [stop_worker, CameraWorker.stop, hws, hw, hrun, hcid, htid, SysState.setWorker]
  · intro htid
    simp [stop_worker, CameraWorker.stop, hws, hw, hrun, hcid, htid]


theorem register_reduces (s : SysState) (cid : String) (cam : Camera)
    (WP : List (Nat × CameraWorker)) (TS : List (String × Nat))
    (TK : List (Nat × TaskRec))
    (hid : cam.id = cid)
    (hcontains : alcontains s.worker_store cid = true)
    (hstop_s : stop_worker s cid
      = ⟨s.camera_store, WP, aldel s.worker_store cid, TS, TK,
         s.nextW, s.nextT, s.events, s.metrics⟩)
    (hstop_s2 : stop_worker
        ({ s with camera_store := alset s.camera_store cid cam } : SysState) cid
      = ⟨alset s.camera_store cid cam, WP, aldel s.worker_store cid, TS, TK,
         s.nextW, s.nextT, s.events, s.metrics⟩) :
    (((cam.source_type == "rtsp" || cam.source_type == "mjpeg")
        && truthy cam.source_url) = true →
      register_camera s cam
        = start_worker ⟨alset s.camera_store cid cam, WP, aldel s.worker_store cid,
            TS, TK, s.nextW, s.nextT, s.events, s.metrics⟩
            cid cam.source_type cam.source_url)
    ∧ (((cam.source_type == "rtsp" || cam.source_type == "mjpeg")
        && truthy cam.source_url) = false →
      (cam.source_type == "http_push") = true →
      register_camera s cam
        = start_worker ⟨alset s.camera_store cid cam, WP, aldel s.worker_store cid,
            TS, TK, s.nextW, s.nextT, s.events, s.metrics⟩
            cid "http_push" none) := by
  by_cases hcs : alcontains s.camera_store cid = true
  · constructor
    · intro hb1
      simp only [register_camera, hid, hcs, if_true, hstop_s, hb1]
    · intro hb1 hpush
      simp only [register_camera, hid, hcs, if_true, hstop_s, hb1,
        Bool.false_eq_true, if_false, hpush]
  · have hcs' : alcontains s.camera_store cid = false := by
      revert hcs
      cases alcontains s.camera_store cid <;> simp
    have hc2 : alcontains
        ({ s with camera_store := alset s.camera_store cid cam } : SysState).worker_store
        cid = true := hcontains
    constructor
    · intro hb1
      simp only [register_camera, hid, hcs', Bool.false_eq_true, if_false, hb1, if_true]
      rw [stop_worker_contains_eq _ _ hc2, hstop_s2]
    · intro hb1 hpush
      simp only [register_camera, hid, hcs', Bool.false_eq_true, if_false, hb1, hpush,
        if_true]
      rw [stop_worker_contains_eq _ _ hc2, hstop_s2]

/-- C1 (amended): registering camera X when a running worker for X already
exists first fully stops the previous worker and then records exactly one new
running worker for X — PROVIDED the new registration is of a kind that starts
a worker (a pull source with a URL, or a push source).  The previous worker's
task (if any) has fully terminated and its handle is no longer in the task
store. -/
theorem C1_register_replace_amended (s : SysState) (cid : String) (wid : Nat)
    (w : CameraWorker) (cam : Camera)
    (hws : alget s.worker_store cid = some wid)
    (hw : s.getWorker wid = some w)
    (hcid : w.camera_id = cid)
    (hrun : w.is_running = true)
    (hid : cam.id = cid)
    (hstart : startable cam = true)
    (hfreshW : alget s.workers s.nextW = none)
    (hwid : wid < s.nextW) :
    (alget (register_camera s cam).worker_store cid = some s.nextW
      ∧ s.nextW ≠ wid
      ∧ ((register_camera s cam).getWorker s.nextW).map (fun w' => w'.is_running)
          = some true)
    ∧ (∀ tid t, alget s.task_store cid = some tid → alget s.tasks tid = some t →
        tid < s.nextT →
        alget (register_camera s cam).tasks tid = some { t with terminated := true }
        ∧ alget (register_camera s cam).task_store cid ≠ some tid) := by
  have hcontains : alcontains s.worker_store cid = true := by
    simp [alcontains, hws]
  have hws2 : alget ({ s with camera_store := alset s.camera_store cid cam }
      : SysState).worker_store cid = some wid := hws
  have hw2 : ({ s with camera_store := alset s.camera_store cid cam }
      : SysState).getWorker wid = some w := hw
  -- pick the post-stop snapshot pieces according to the task case
  obtain ⟨WP, TS, TK, hWfresh, hTSd, hTKd, hstop_s, hstop_s2⟩ :
      ∃ (WP : List (Nat × CameraWorker)) (TS : List (String × Nat))
        (TK : List (Nat × TaskRec)),
        alget WP s.nextW = none
        ∧ (∀ tid, alget s.task_store cid = some tid → alget TS cid = none)
        ∧ (∀ tid t, alget s.task_store cid = some tid → alget s.tasks tid = some t →
            alget TK tid = some { t with terminated := true })
        ∧ stop_worker s cid
          = ⟨s.camera_store, WP, aldel s.worker_store cid, TS, TK,
             s.nextW, s.nextT, s.events, s.metrics⟩
        ∧ stop_worker
            ({ s with camera_store := alset s.camera_store cid cam } : SysState) cid
          = ⟨alset s.camera_store cid cam, WP, aldel s.worker_store cid, TS, TK,
             s.nextW, s.nextT, s.events, s.metrics⟩ := by
    cases hts : alget s.task_store cid with
    | some tid0 =>
      refine ⟨alupdate s.workers wid
          (fun _ => { w with stop_event := true, is_running := false }),
        aldel s.task_store cid,
        alupdate s.tasks tid0 (fun t0 => { t0 with terminated := true }),
        alget_alupdate_none _ _ _ _ hfreshW, ?_, ?_, ?_, ?_⟩
      · intro tid _
        exact alget_aldel_self _ _
      · intro tid t htid ht
        have heq : tid = tid0 := (Option.some.inj htid).symm
        subst heq
        rw [alget_alupdate_self, ht]
        rfl
      · exact (stop_worker_shape s cid wid w hws hw hcid hrun).1 tid0 hts
      · exact (stop_worker_shape _ cid wid w hws2 hw2 hcid hrun).1 tid0 hts
    | none =>
      refine ⟨s.workers, s.task_store, s.tasks, hfreshW, ?_, ?_, ?_, ?_⟩
      · intro tid htid
        exact absurd htid (by simp)
      · intro tid t htid ht
        exact absurd htid (by simp)
      · exact (stop_worker_shape s cid wid w hws hw hcid hrun).2 hts
      · exact (stop_worker_shape _ cid wid w hws2 hw2 hcid hrun).2 hts
  have hred := register_reduces s cid cam WP TS TK hid hcontains hstop_s hstop_s2
  -- split on which start_worker branch fires
  by_cases hb1 : ((cam.source_type == "rtsp" || cam.source_type == "mjpeg")
      && truthy cam.source_url) = true
  · -- pull source
    obtain ⟨u, hurl, hu⟩ : ∃ u, cam.source_url = some u ∧ u ≠ "" := by
      cases hurl : cam.source_url with
      | none => rw [hurl] at hb1; simp [truthy] at hb1
      | some u =>
        rw [hurl] at hb1
        simp [truthy] at hb1
        exact ⟨u, rfl, hb1.2⟩
    have hsty : (cam.source_type == "rtsp" || cam.source_type == "mjpeg") = true := by
      simp at hb1
      simp [hb1.1]
    have hR := hred.1 hb1
    rw [hurl] at hR
    rw [hR, start_worker_pull_fresh _ _ _ _ (alget_aldel_self _ _) hWfresh hsty hu]
    have hgetw : ∀ (wn : CameraWorker), alget (WP ++ [(s.nextW, wn)]) s.nextW = some wn := by
      intro wn
      rw [alget_append_none _ _ _ hWfresh]
      simp [alget]
    refine ⟨⟨alget_alset_self _ _ _, by omega, ?_⟩, ?_⟩
    · simp only [SysState.getWorker]
      rw [alget_alupdate_self, hgetw]
      rfl
    · intro tid t htid ht htlt
      constructor
      · exact alget_append_some _ _ _ _ (hTKd tid t htid ht)
      · rw [alget_alset_self]
        intro hcontra
        have : s.nextT = tid := Option.some.inj hcontra
        omega
  · -- push source
    have hb1' : ((cam.source_type == "rtsp" || cam.source_type == "mjpeg")
        && truthy cam.source_url) = false := by
      revert hb1
      cases ((cam.source_type == "rtsp" || cam.source_type == "mjpeg")
        && truthy cam.source_url) <;> simp
    have hpush : (cam.source_type == "http_push") = true := by
      have := hstart
      simp only [startable, hb1', Bool.false_or] at this
      exact this
    have hR := hred.2 hb1' hpush
    rw [hR, start_worker_push_fresh _ _ (alget_aldel_self _ _)]
    have hgetw : ∀ (wn : CameraWorker), alget (WP ++ [(s.nextW, wn)]) s.nextW = some wn := by
      intro wn
      rw [alget_append_none _ _ _ hWfresh]
      simp [alget]
    refine ⟨⟨alget_alset_self _ _ _, by omega, ?_⟩, ?_⟩
    · simp only [SysState.getWorker]
      rw [hgetw]
      rfl
    · intro tid t htid ht htlt
      exact ⟨hTKd tid t htid ht, by rw [hTSd tid htid]; simp⟩

/-- Witness for C10 on the state produced by registering a pull camera. -/
theorem C10_start_noop_when_running_witness :
    ((register_camera SysState.empty camRtsp).getWorker 0
        = some { CameraWorker.init "cam" "rtsp://a" 10 with is_running := true }
      ∧ ({ CameraWorker.init "cam" "rtsp://a" 10 with
          is_running := true } : CameraWorker).is_running = true)
    ∧ CameraWorker.start (register_camera SysState.empty camRtsp) 0
        = register_camera SysState.empty camRtsp :=
  ⟨⟨by decide, by decide⟩,
    C10_start_noop_when_running (register_camera SysState.empty camRtsp) 0
      { CameraWorker.init "cam" "rtsp://a" 10 with is_running := true }
      (by decide) (by decide)⟩

/-- Witness for C8 on the same registered state: stopping the running worker
pops and terminates task 0 and clears the running flag. -/
theorem C8_stop_spec_witness :
    ((register_camera SysState.empty camRtsp).getWorker 0
        = some { CameraWorker.init "cam" "rtsp://a" 10 with is_running := true }
      ∧ alget (register_camera SysState.empty camRtsp).task_store "cam" = some 0
      ∧ alget (register_camera SysState.empty camRtsp).tasks 0
          = some { owner := 0, terminated := false })
    ∧ (alget (CameraWorker.stop (register_camera SysState.empty camRtsp) 0).task_store
          "cam" = none
      ∧ alget (CameraWorker.stop (register_camera SysState.empty camRtsp) 0).tasks 0
          = some { ({ owner := 0, terminated := false } : TaskRec) with terminated := true }
      ∧ (CameraWorker.stop (register_camera SysState.empty camRtsp) 0).getWorker 0
          = some { ({ CameraWorker.init "cam" "rtsp://a" 10 with
              is_running := true } : CameraWorker) with
              stop_event := true, is_running := false }) :=
  ⟨⟨by decide, by decide, by decide⟩,
    (C8_stop_spec (register_camera SysState.empty camRtsp) 0
      { CameraWorker.init "cam" "rtsp://a" 10 with is_running := true } 0
      { owner := 0, terminated := false } (by decide)).2
      (by decide) (by decide) (by decide)⟩

/-- C1 counterexample.  Register a pull camera "cam" (one running worker, one
live task); then register the SAME identity again with source kind "onvif"
(accepted by the API, which only validates rtsp-without-URL).  The old worker
is stopped and discarded, and NO new worker is recorded: afterwards zero
workers exist for "cam", refuting "afterwards exactly one running worker
exists for X" as universally stated. -/
theorem C1_counterexample :
    alget (register_camera SysState.empty camRtsp).worker_store "cam" = some 0
    ∧ ((register_camera SysState.empty camRtsp).getWorker 0).map
        (fun w => w.is_running) = some true
    ∧ alget (register_camera (register_camera SysState.empty camRtsp)
        camOnvif).worker_store "cam" = none := by
  refine ⟨by decide, by decide, by decide⟩

/-- Witness for C1 (amended): replacing the running pull worker for "cam" by a
second pull registration records the fresh worker object (id `nextW` = 1). -/
theorem C1_register_replace_amended_witness :
    (alget (register_camera SysState.empty camRtsp).worker_store "cam" = some 0
      ∧ (register_camera SysState.empty camRtsp).getWorker 0
          = some { CameraWorker.init "cam" "rtsp://a" 10 with is_running := true }
      ∧ camRtsp2.id = "cam" ∧ startable camRtsp2 = true
      ∧ alget (register_camera SysState.empty camRtsp).workers
          (register_camera SysState.empty camRtsp).nextW = none
      ∧ 0 < (register_camera SysState.empty camRtsp).nextW)
    ∧ alget (register_camera (register_camera SysState.empty camRtsp)
          camRtsp2).worker_store "cam"
        = some (register_camera SysState.empty camRtsp).nextW :=
  ⟨⟨by decide, by decide, by decide, by decide, by decide, by decide⟩,
    (C1_register_replace_amended (register_camera SysState.empty camRtsp) "cam" 0
      { CameraWorker.init "cam" "rtsp://a" 10 with is_running := true } camRtsp2
      (by decide) (by decide) (by decide) (by decide) (by decide) (by decide)
      (by decide) (by decide)).1.1⟩

/-! ## C7 — HTTP push ingestion scenario A -/

/-- C7: evaluating the code at the failing input.  Register the push camera
"cam_1" and POST one valid 4-row JPEG with timestamp 123: the endpoint answers
success carrying timestamp 123, yet NO `frame.ingested` event reaches the sink
(the `redis_publisher.publish(...)` coroutine on `cameras.py` line 131 is
never awaited) and the subsequent on-demand latest-frame read raises
`ValueError` instead of returning a decodable JPEG (the handler buffered the
bare frame on line 127, while `get_latest_frame_jpeg` unpacks `(frame,
timestamp)` tuples). -/
theorem C7_push_ingest_bug :
    alget (register_camera SysState.empty camPush1).worker_store "cam_1" = some 0
    ∧ (http_push_ingest (register_camera SysState.empty camPush1) "cam_1"
        (some [[⟨1, 2, 3⟩], [⟨1, 2, 3⟩], [⟨1, 2, 3⟩], [⟨1, 2, 3⟩]])
        (some 123) 999).2 = Except.ok 123
    ∧ (http_push_ingest (register_camera SysState.empty camPush1) "cam_1"
        (some [[⟨1, 2, 3⟩], [⟨1, 2, 3⟩], [⟨1, 2, 3⟩], [⟨1, 2, 3⟩]])
        (some 123) 999).1.events = []
    ∧ ((http_push_ingest (register_camera SysState.empty camPush1) "cam_1"
        (some [[⟨1, 2, 3⟩], [⟨1, 2, 3⟩], [⟨1, 2, 3⟩], [⟨1, 2, 3⟩]])
        (some 123) 999).1.getWorker 0).map get_latest_frame_jpeg
        = some (Except.error "ValueError") := by
  refine ⟨by decide, by rfl, by decide, by rfl⟩
